import Mathlib

/-
Verification of the GemstoneBackend session/authentication core.

The development shallowly embeds the session-consistency core of the
backend: the request classifier (middleware/session.middleware.js), the
session-record sanitizer (middleware/sanitizedMongoStore.js), the
authentication routes and controllers (routes/auth.routes.js,
controllers/auth.controller.js, middleware/auth.middleware.js) and the
passport local strategy (config/passport.config.js).

Strings are modelled as lists of characters so that every operation is
kernel-computable; JavaScript string primitives (includes, startsWith,
toLowerCase, replace of a protocol prefix, split) are given as explicit
list functions.
-/

namespace Gemstone

/-- JavaScript strings, modelled as lists of characters. -/
abbrev Str := List Char

/-- JavaScript hay.includes(needle): substring containment. -/
def strIncludes (hay needle : Str) : Bool :=
  decide (needle <:+: hay)

/-- JavaScript s.startsWith(pre). -/
def strStarts (s pre : Str) : Bool :=
  decide (pre <+: s)

/-- ASCII lower-casing of one character, as toLowerCase acts on ASCII. -/
def lowerChar (c : Char) : Char :=
  if 'A' ≤ c ∧ c ≤ 'Z' then Char.ofNat (c.toNat + 32) else c

/-- JavaScript s.toLowerCase() on ASCII strings. -/
def lowerStr (s : Str) : Str := s.map lowerChar

/-- JavaScript s.replace(re-protocol, empty): strip a leading http:// or
https:// prefix. -/
def stripProtocol (s : Str) : Str :=
  if strStarts s "https://".toList then s.drop 8
  else if strStarts s "http://".toList then s.drop 7
  else s

/-- JavaScript s.replace(re-trailing-slash, empty): drop one trailing slash. -/
def stripTrailingSlash (s : Str) : Str :=
  if s.getLast? = some '/' then s.dropLast else s

/-- JavaScript s.split(slash)[0]: the part before the first slash. -/
def firstComponent (s : Str) : Str := s.takeWhile (fun c => c ≠ '/')

/-- The user-namespace cookie name (default SESSION_NAME). -/
def userCookieName : Str := "connect.sid".toList

/-- The admin-namespace cookie name. -/
def adminCookieName : Str := "admin.connect.sid".toList

/-- The admin role string. -/
def adminRole : Str := "admin".toList

/-- The user role string. -/
def userRole : Str := "user".toList

/-- The inbound request attributes inspected by isAdminRequest
(middleware/session.middleware.js). A missing header is modelled as the
empty string where the source applies a default, and as none where the
source compares the raw header. -/
structure HttpRequest where
  xClientType : Option Str
  path : Str
  cookieHeader : Str
  origin : Str
  referer : Str
deriving DecidableEq

/-- The two configured base URLs (ADMIN_URL and FRONTEND_URL). -/
structure ClassifierConfig where
  adminUrl : Str
  frontendUrl : Str
deriving DecidableEq

/-- The default configuration (no environment overrides). -/
def defaultConfig : ClassifierConfig :=
  ⟨"http://localhost:8081".toList, "http://localhost:8080".toList⟩

/-- The cookie test on line 25 of middleware/session.middleware.js:
cookies.includes(admin cookie name followed by equals) and not
cookies.includes(user cookie name followed by equals). -/
def adminCookieRule (cookieHeader : Str) : Bool :=
  strIncludes cookieHeader (adminCookieName ++ ['=']) &&
    !(strIncludes cookieHeader (userCookieName ++ ['=']))

/-- isAdminRequest from middleware/session.middleware.js: decide whether a
request belongs to the admin session namespace. -/
def isAdminRequest (cfg : ClassifierConfig) (req : HttpRequest) : Bool :=
  if req.xClientType = some adminRole then true
  else if strStarts req.path "/api/auth/admin".toList ||
          strIncludes req.path "/admin/".toList then true
  else if adminCookieRule req.cookieHeader then true
  else
    let adminDomain := stripTrailingSlash (stripProtocol cfg.adminUrl)
    let frontendDomain := stripTrailingSlash (stripProtocol cfg.frontendUrl)
    let originDomain := stripTrailingSlash (stripProtocol req.origin)
    let originHit :=
      !(decide (req.origin = [])) &&
      (decide (originDomain = adminDomain) || strIncludes originDomain adminDomain) &&
      (!(decide (originDomain = frontendDomain)) && !(strIncludes originDomain frontendDomain))
    let refererDomain := firstComponent (stripProtocol req.referer)
    let refererHit :=
      !(decide (req.referer = [])) &&
      (decide (refererDomain = adminDomain) || strIncludes refererDomain adminDomain) &&
      (!(decide (refererDomain = frontendDomain)) && !(strIncludes refererDomain frontendDomain))
    originHit || refererHit

/-- A request carrying only the admin session cookie: no client-type
header, a non-admin path, no origin and no referer. -/
def adminCookieOnlyRequest : HttpRequest :=
  { xClientType := none
    path := "/api/products".toList
    cookieHeader := "admin.connect.sid=s%3Aabcdef123456.sig".toList
    origin := []
    referer := [] }

/-- The cookie field of a stored session record, as seen by the
sanitizer: absent, present but not an object, or an object whose expires
value may be missing. -/
inductive CookieField
  | missing
  | nonObject
  | obj (expires : Option Nat)
deriving DecidableEq

/-- A session record in the store: the cookie descriptor plus the
authenticated principal id placed there by passport serializeUser
(passport.user), absent for anonymous sessions. -/
structure SessionData where
  cookie : CookieField
  passportUser : Option Nat
deriving DecidableEq

/-- The corruption test on line 33 of middleware/sanitizedMongoStore.js:
the cookie field is falsy, not an object, or has a falsy expires value. -/
def corruptedSession (s : SessionData) : Bool :=
  match s.cookie with
  | .obj (some _) => false
  | _ => true

/-- One session collection, keyed by session id. -/
abbrev SessionStore := List (Str × SessionData)

/-- store.get on the underlying MongoStore: first record under the id. -/
def storeLookup (st : SessionStore) (sid : Str) : Option SessionData :=
  (st.find? (fun p => decide (p.1 = sid))).map (fun p => p.2)

/-- store.destroy on the underlying MongoStore: drop the id. -/
def storeErase (st : SessionStore) (sid : Str) : SessionStore :=
  st.filter (fun p => !(decide (p.1 = sid)))

/-- store.set on the underlying MongoStore: bind the id to the record. -/
def storeInsert (st : SessionStore) (sid : Str) (s : SessionData) : SessionStore :=
  (sid, s) :: storeErase st sid

/-- Store operations the sanitizer issues against the wrapped store. -/
inductive StoreOp
  | getOp (sid : Str)
  | destroyOp (sid : Str)
deriving DecidableEq

/-- Outcome of the sanitized get: the store after the call, the record
handed to the caller (none = not found), and the operations issued
against the wrapped store. -/
structure SanitizedGetResult where
  store : SessionStore
  result : Option SessionData
  ops : List StoreOp
deriving DecidableEq

/-- The overridden store.get of middleware/sanitizedMongoStore.js: load
the record; report not-found when absent; when the record is corrupted,
issue a destroy (whose failure is logged but not fatal, modelled by the
destroySucceeds flag) and report not-found; otherwise hand the record
back. -/
def sanitizedGet (st : SessionStore) (destroySucceeds : Bool) (sid : Str) :
    SanitizedGetResult :=
  match storeLookup st sid with
  | none => ⟨st, none, [.getOp sid]⟩
  | some s =>
    if corruptedSession s then
      ⟨if destroySucceeds then storeErase st sid else st, none,
        [.getOp sid, .destroyOp sid]⟩
    else ⟨st, some s, [.getOp sid]⟩

/-- A stored account. Modelled from the spec for the missing
models/User.model.js (only its callers are in the source tree):
identifier, unique case-insensitive email, credential hash, display name
fields, role, active flag. -/
structure Principal where
  pid : Nat
  email : Str
  passwordHash : Str
  firstName : Str
  lastName : Str
  role : Str
  isActive : Bool
deriving DecidableEq

/-- Modelled from the spec: the pre-save hook of the missing User model
hashes the credential one way; the hash is modelled as an injective
tagging of the password. -/
def hashPassword (pw : Str) : Str := 'h' :: '#' :: pw

/-- Modelled from the spec: User.comparePassword, a one-way hash
comparison of the supplied password against the stored hash. -/
def comparePassword (u : Principal) (pw : Str) : Bool :=
  decide (u.passwordHash = hashPassword pw)

/-- A principal as serialized into a response body by toJSON of the
missing User model: every field except the credential hash (modelled
from the spec: respond with the principal, credential hash excluded). -/
structure PrincipalView where
  pid : Nat
  email : Str
  firstName : Str
  lastName : Str
  role : Str
  isActive : Bool
deriving DecidableEq

/-- Drop the credential hash from a principal. -/
def toView (u : Principal) : PrincipalView :=
  ⟨u.pid, u.email, u.firstName, u.lastName, u.role, u.isActive⟩

/-- The account collection. -/
abbrev UserDB := List Principal

/-- User.findOne on the email field (exact match against the stored,
lower-cased email; callers lower-case the query first, as the source
does). -/
def findByEmail (db : UserDB) (e : Str) : Option Principal :=
  db.find? (fun u => decide (u.email = e))

/-- Response messages used by the auth routes and controllers. -/
def msgInvalidCred : Str := "Invalid email or password".toList

def msgDeactivated : Str := "Account is deactivated".toList

def msgLoginOk : Str := "Login successful".toList

def msgAdminRejected : Str :=
  "Admin accounts cannot login through this endpoint. Please use the admin panel.".toList

def msgAdminLoginOk : Str := "Admin login successful".toList

def msgAccessDenied : Str := "Access denied. Admin privileges required.".toList

def msgLogoutOk : Str := "Logout successful".toList

def msgDestroyError : Str := "Error destroying session".toList

def msgAuthRequired : Str := "Authentication required. Please log in.".toList

def msgUserExists : Str := "User with this email already exists".toList

def msgCannotCreateAdmin : Str :=
  "Cannot create admin accounts through this endpoint".toList

def msgUserCreated : Str := "User created successfully".toList

/-- The passport local strategy verify callback
(config/passport.config.js): look the account up by lower-cased email,
reject unknown accounts, deactivated accounts, and password mismatches,
with the strategy failure message; otherwise yield the principal. -/
def authenticateLocal (db : UserDB) (email pw : Str) : Except Str Principal :=
  match findByEmail db (lowerStr email) with
  | none => .error msgInvalidCred
  | some u =>
    if !u.isActive then .error msgDeactivated
    else if !(comparePassword u pw) then .error msgInvalidCred
    else .ok u

/-- The two session namespaces. -/
inductive Ns
  | userNs
  | adminNs
deriving DecidableEq

/-- The cookie name of a namespace. -/
def cookieNameOf : Ns → Str
  | .userNs => userCookieName
  | .adminNs => adminCookieName

/-- Observable effects of handling one request, in the order the server
issues them: session-store writes, cookie clearing instructions, and the
flush that puts the response on the wire. -/
inductive Ev
  | save (ns : Ns) (sid : Str) (s : SessionData)
  | destroy (ns : Ns) (sid : Str)
  | clearCookie (name : Str)
  | flush (status : Nat)
deriving DecidableEq

/-- A JSON response body of the auth endpoints: status, success flag,
message, and the serialized principal when one is returned. -/
structure HttpResponse where
  status : Nat
  success : Bool
  message : Str
  user : Option PrincipalView
deriving DecidableEq

/-- What a route handler produces: the effects it issues explicitly (in
code order), the response it builds, and the session object as it stands
when the response is finalized (none = destroyed). -/
structure HandlerRun where
  events : List Ev
  response : HttpResponse
  finalSession : Option SessionData
deriving DecidableEq

/-- Modelled from the spec (section 4.2 step 6, the session-manager
response finalization the express-session dependency performs, which is
not part of this source tree): when the response is finalized the
surviving session object is persisted to the store, and only then is the
response flushed to the client. Explicit handler effects come first, in
code order. -/
def runRequest (ns : Ns) (sid : Str) (h : HandlerRun) : List Ev :=
  h.events ++
    (match h.finalSession with
     | some s => [Ev.save ns sid s]
     | none => []) ++
    [Ev.flush h.response.status]

/-- POST /api/auth/login (routes/auth.routes.js lines 62 to 107 plus
controllers/auth.controller.js login): authenticate with the local
strategy; on failure answer 401 with the strategy message; on success
req.login places the principal id in the session, the route saves the
session explicitly before handing over to the controller, and the
controller rejects admin principals with 403 after logging them out, or
answers 200 with the principal. -/
def userLoginRoute (db : UserDB) (email pw sid : Str) (sess : SessionData) :
    HandlerRun :=
  match authenticateLocal db email pw with
  | .error m =>
    { events := [], response := ⟨401, false, m, none⟩, finalSession := some sess }
  | .ok u =>
    let sess1 : SessionData := { sess with passportUser := some u.pid }
    if u.role = adminRole then
      let sess2 : SessionData := { sess1 with passportUser := none }
      { events := [Ev.save .userNs sid sess1]
        response := ⟨403, false, msgAdminRejected, none⟩
        finalSession := some sess2 }
    else
      { events := [Ev.save .userNs sid sess1]
        response := ⟨200, true, msgLoginOk, some (toView u)⟩
        finalSession := some sess1 }

/-- POST /api/auth/admin/login (routes/auth.routes.js lines 110 to 133
plus controllers/auth.controller.js adminLogin): authenticate with the
local strategy; on failure answer 401; on success req.login places the
principal id in the session (no explicit save in this route), and the
controller answers 200 for admin principals or rejects others with 403
after logging them out. -/
def adminLoginRoute (db : UserDB) (email pw sid : Str) (sess : SessionData) :
    HandlerRun :=
  match authenticateLocal db email pw with
  | .error m =>
    { events := [], response := ⟨401, false, m, none⟩, finalSession := some sess }
  | .ok u =>
    let sess1 : SessionData := { sess with passportUser := some u.pid }
    if u.role = adminRole then
      { events := []
        response := ⟨200, true, msgAdminLoginOk, some (toView u)⟩
        finalSession := some sess1 }
    else
      let sess2 : SessionData := { sess1 with passportUser := none }
      { events := []
        response := ⟨403, false, msgAccessDenied, none⟩
        finalSession := some sess2 }

/-- The logout controller (controllers/auth.controller.js lines 250 to
287): req.logout, destroy the session record of the caller namespace in
its store, then clear both cookies and answer 200; a destroy failure
answers 500 (the failed destroy leaves the record in place). -/
def logoutHandler (ns : Ns) (sid : Str) (destroySucceeds : Bool) : HandlerRun :=
  if destroySucceeds then
    { events := [Ev.destroy ns sid,
                 Ev.clearCookie userCookieName,
                 Ev.clearCookie adminCookieName]
      response := ⟨200, true, msgLogoutOk, none⟩
      finalSession := none }
  else
    { events := []
      response := ⟨500, false, msgDestroyError, none⟩
      finalSession := none }

/-- POST /api/auth/logout (routes/auth.routes.js line 136): the
isAuthenticated middleware (middleware/auth.middleware.js) answers 401
for requests whose session carries no authenticated principal; otherwise
the logout controller runs. -/
def logoutRoute (ns : Ns) (sid : Str) (sess : SessionData)
    (destroySucceeds : Bool) : HandlerRun :=
  if sess.passportUser.isSome then logoutHandler ns sid destroySucceeds
  else
    { events := []
      response := ⟨401, false, msgAuthRequired, none⟩
      finalSession := some sess }

/-- POST /api/auth/signup (controllers/auth.controller.js signup): a
requested role equal to the string admin is rejected with 403 before
anything else; then a duplicate lower-cased email is rejected with 400;
otherwise the principal is stored with role user and a hashed credential,
req.login places its id in the user-namespace session, the session is
saved explicitly, and the 201 response carries the principal without the
credential hash. Returns the account collection after the call together
with the handler run. -/
def signupHandler (db : UserDB) (newId : Nat) (email pw : Str)
    (firstName lastName : Option Str) (role : Option Str)
    (sid : Str) (sess : SessionData) : UserDB × HandlerRun :=
  if role = some adminRole then
    ⟨db, { events := []
           response := ⟨403, false, msgCannotCreateAdmin, none⟩
           finalSession := some sess }⟩
  else
    match findByEmail db (lowerStr email) with
    | some _ =>
      ⟨db, { events := []
             response := ⟨400, false, msgUserExists, none⟩
             finalSession := some sess }⟩
    | none =>
      let newUser : Principal :=
        { pid := newId
          email := lowerStr email
          passwordHash := hashPassword pw
          firstName := firstName.getD []
          lastName := lastName.getD []
          role := userRole
          isActive := true }
      let sess1 : SessionData := { sess with passportUser := some newUser.pid }
      ⟨db ++ [newUser],
       { events := [Ev.save .userNs sid sess1]
         response := ⟨201, true, msgUserCreated, some (toView newUser)⟩
         finalSession := some sess1 }⟩

/-- A status probe response: the authenticated flag and the principal or
null. -/
structure StatusResponse where
  authenticated : Bool
  user : Option PrincipalView
deriving DecidableEq

/-- GET /api/auth/status (controllers/auth.controller.js getAuthStatus):
a resolved admin principal is reported as not authenticated with a null
user; otherwise the flag mirrors whether a principal resolved. -/
def getAuthStatus (user : Option Principal) : StatusResponse :=
  match user with
  | some u =>
    if u.role = adminRole then ⟨false, none⟩
    else ⟨true, some (toView u)⟩
  | none => ⟨false, none⟩

/-- GET /api/auth/admin/status (controllers/auth.controller.js
getAdminAuthStatus): authenticated only for a resolved admin principal;
anything else answers false with a null user. -/
def getAdminAuthStatus (user : Option Principal) : StatusResponse :=
  match user with
  | some u =>
    if u.role = adminRole then ⟨true, some (toView u)⟩
    else ⟨false, none⟩
  | none => ⟨false, none⟩

/-- The two session collections (the sessions and admin_sessions
collections of middleware/session.middleware.js). -/
structure Stores where
  userStore : SessionStore
  adminStore : SessionStore
deriving DecidableEq

/-- Replay one effect against the stores. -/
def applyEv (st : Stores) : Ev → Stores
  | .save .userNs sid s => { st with userStore := storeInsert st.userStore sid s }
  | .save .adminNs sid s => { st with adminStore := storeInsert st.adminStore sid s }
  | .destroy .userNs sid => { st with userStore := storeErase st.userStore sid }
  | .destroy .adminNs sid => { st with adminStore := storeErase st.adminStore sid }
  | .clearCookie _ => st
  | .flush _ => st

/-- Replay a trace of effects against the stores. -/
def applyTrace (st : Stores) (tr : List Ev) : Stores := tr.foldl applyEv st

/-- Whether a trace instructs the client to drop the named cookie. -/
def clearsCookie (tr : List Ev) (name : Str) : Bool :=
  tr.any (fun e =>
    match e with
    | .clearCookie n => decide (n = name)
    | _ => false)

/-- Whether an effect flushes a response. -/
def isFlush : Ev → Bool
  | .flush _ => true
  | _ => false

/-- Whether an effect writes, under the given namespace and id, a session
record carrying the given principal id. -/
def authSaveFor (ns : Ns) (sid : Str) (uid : Nat) : Ev → Bool
  | .save n s d => decide (n = ns) && decide (s = sid) && decide (d.passportUser = some uid)
  | _ => false

/-- The write of the authenticated session record completes before any
response reaches the wire. -/
def persistedBeforeFlush (tr : List Ev) (ns : Ns) (sid : Str) (uid : Nat) : Bool :=
  (tr.takeWhile (fun e => !isFlush e)).any (authSaveFor ns sid uid)

/-- A regular active account. -/
def aliceP : Principal :=
  ⟨1, "alice@x.com".toList, hashPassword "secret1".toList,
   "Alice".toList, [], userRole, true⟩

/-- The provisioned admin account (scripts/createAdminUser.js). -/
def adminP : Principal :=
  ⟨2, "admin@gemstones.com".toList, hashPassword "admin123".toList,
   "Admin".toList, "User".toList, adminRole, true⟩

/-- A deactivated account. -/
def inactiveP : Principal :=
  ⟨3, "inactive@x.com".toList, hashPassword "pass123".toList,
   [], [], userRole, false⟩

/-- A small account collection for witnesses. -/
def demoDB : UserDB := [aliceP, adminP, inactiveP]

/-- A session id for witnesses. -/
def sidA : Str := "a1b2c3d4e5f6a7b8c9d0e1f2a3b4c5d6".toList

/-- An anonymous session with a well-formed cookie descriptor. -/
def anonSession : SessionData := ⟨.obj (some 604800000), none⟩

/-- An authenticated session with a well-formed cookie descriptor. -/
def authedSession : SessionData := ⟨.obj (some 604800000), some 1⟩

/-- A corrupted record: the cookie field is missing. -/
def corruptRecord : SessionData := ⟨.missing, some 5⟩

/-- A store holding only the corrupted record. -/
def corruptStore : SessionStore := [(sidA, corruptRecord)]

theorem storeLookup_erase (st : SessionStore) (sid : Str) :
    storeLookup (storeErase st sid) sid = none := by
  simp only [storeLookup, Option.map_eq_none']
  rw [List.find?_eq_none]
  intro p hp
  simp only [storeErase, List.mem_filter] at hp
  simpa using hp.2

theorem storeLookup_insert_self (st : SessionStore) (sid : Str) (s : SessionData) :
    storeLookup (storeInsert st sid s) sid = some s := by
  simp [storeInsert, storeLookup, List.find?]

theorem user_cookie_infix_of_admin_cookie (ch : Str)
    (h : strIncludes ch (adminCookieName ++ ['=']) = true) :
    strIncludes ch (userCookieName ++ ['=']) = true := by
  unfold strIncludes at *
  rw [decide_eq_true_eq] at *
  have hsub : (userCookieName ++ ['=']) <:+: (adminCookieName ++ ['=']) := by decide
  exact hsub.trans h

/-- C2: a stored record without a well-formed expiry descriptor is never
returned by the sanitized get: the get issues a destroy of the id,
reports not-found even when the destroy fails, a subsequent read of the
id still reports not-found, and every record any sanitized get ever
returns has a well-formed expiry descriptor. -/
theorem sanitizer_corruption_hidden
    (st : SessionStore) (d d2 : Bool) (sid : Str) (s : SessionData)
    (hfound : storeLookup st sid = some s) (hbad : corruptedSession s = true) :
    (sanitizedGet st d sid).result = none ∧
    StoreOp.destroyOp sid ∈ (sanitizedGet st d sid).ops ∧
    (sanitizedGet (sanitizedGet st d sid).store d2 sid).result = none ∧
    ∀ (st2 : SessionStore) (d3 : Bool) (sid2 : Str) (r : SessionData),
      (sanitizedGet st2 d3 sid2).result = some r → corruptedSession r = false := by
  refine ⟨?_, ?_, ?_, ?_⟩
  · simp [sanitizedGet, hfound, hbad]
  · simp [sanitizedGet, hfound, hbad]
  · cases d with
    | true => simp [sanitizedGet, hfound, hbad, storeLookup_erase]
    | false => simp [sanitizedGet, hfound, hbad]
  · intro st2 d3 sid2 r hr
    unfold sanitizedGet at hr
    cases h : storeLookup st2 sid2 with
    | none => simp [h] at hr
    | some s2 =>
      rw [h] at hr
      by_cases hc : corruptedSession s2 = true
      · simp [hc] at hr
      · simp only [Bool.not_eq_true] at hc
        simp [hc] at hr
        rw [← hr]
        exact hc

/-- C2 witness: the corrupted demo record is suppressed and destroyed. -/
theorem sanitizer_corruption_hidden_witness :
    (sanitizedGet corruptStore true sidA).result = none ∧
    StoreOp.destroyOp sidA ∈ (sanitizedGet corruptStore true sidA).ops ∧
    (sanitizedGet (sanitizedGet corruptStore true sidA).store false sidA).result = none ∧
    ∀ (st2 : SessionStore) (d3 : Bool) (sid2 : Str) (r : SessionData),
      (sanitizedGet st2 d3 sid2).result = some r → corruptedSession r = false :=
  sanitizer_corruption_hidden corruptStore true false sidA corruptRecord rfl rfl

/-- C3: the admin-cookie classification rule on line 25 of
middleware/session.middleware.js can never fire, because the user cookie
name is a substring of the admin cookie name; a request carrying only the
admin session cookie (and no other admin signal) is classified as a user
request. -/
theorem classifier_admin_cookie_rule_dead :
    (∀ ch : Str, adminCookieRule ch = false) ∧
    isAdminRequest defaultConfig adminCookieOnlyRequest = false := by
  constructor
  · intro ch
    unfold adminCookieRule
    cases h : strIncludes ch (adminCookieName ++ ['=']) with
    | false => simp
    | true => simp [user_cookie_infix_of_admin_cookie ch h]
  · decide

/-- C9 counterexample: with a deactivated account in the collection, the
no-such-user failure and the wrong-password failure are both 401 but
carry different bodies, so the two responses are distinguishable. -/
theorem login_failure_reveals_deactivated_account :
    findByEmail demoDB (lowerStr "nosuch@x.com".toList) = none ∧
    findByEmail demoDB (lowerStr "inactive@x.com".toList) = some inactiveP ∧
    comparePassword inactiveP "wrongpass".toList = false ∧
    (userLoginRoute demoDB "nosuch@x.com".toList "wrongpass".toList sidA anonSession).response.status = 401 ∧
    (userLoginRoute demoDB "inactive@x.com".toList "wrongpass".toList sidA anonSession).response.status = 401 ∧
    (userLoginRoute demoDB "nosuch@x.com".toList "wrongpass".toList sidA anonSession).response ≠
      (userLoginRoute demoDB "inactive@x.com".toList "wrongpass".toList sidA anonSession).response := by
  decide

/-- C9 amended: when the existing principal is active, the no-such-user
failure and the wrong-password failure are identical 401 responses. -/
theorem login_failures_indistinguishable
    (db : UserDB) (e1 pw1 e2 pw2 sidX sidY : Str) (s1 s2 : SessionData) (u : Principal)
    (h1 : findByEmail db (lowerStr e1) = none)
    (h2 : findByEmail db (lowerStr e2) = some u)
    (hact : u.isActive = true)
    (hpw : comparePassword u pw2 = false) :
    (userLoginRoute db e1 pw1 sidX s1).response.status = 401 ∧
    (userLoginRoute db e2 pw2 sidY s2).response.status = 401 ∧
    (userLoginRoute db e1 pw1 sidX s1).response = (userLoginRoute db e2 pw2 sidY s2).response := by
  simp [userLoginRoute, authenticateLocal, h1, h2, hact, hpw]

/-- C9 amended witness: unknown email versus wrong password for the
active demo account give identical 401 responses. -/
theorem login_failures_indistinguishable_witness :
    (userLoginRoute demoDB "nosuch@x.com".toList "pw".toList sidA anonSession).response.status = 401 ∧
    (userLoginRoute demoDB "alice@x.com".toList "wrongpass".toList sidA anonSession).response.status = 401 ∧
    (userLoginRoute demoDB "nosuch@x.com".toList "pw".toList sidA anonSession).response =
      (userLoginRoute demoDB "alice@x.com".toList "wrongpass".toList sidA anonSession).response :=
  login_failures_indistinguishable demoDB "nosuch@x.com".toList "pw".toList
    "alice@x.com".toList "wrongpass".toList sidA sidA anonSession anonSession aliceP
    (by decide) (by decide) (by decide) (by decide)

/-- C8: the user-facing status probe reports not-authenticated with a
null principal whenever the resolved principal is an admin, and the
admin status probe is authenticated exactly for a resolved admin
principal, answering false with a null principal otherwise. -/
theorem status_checks_respect_roles (user : Option Principal) :
    (∀ u : Principal, user = some u → u.role = adminRole →
        getAuthStatus user = ⟨false, none⟩) ∧
    ((getAdminAuthStatus user).authenticated = true ↔
        ∃ u : Principal, user = some u ∧ u.role = adminRole) ∧
    ((getAdminAuthStatus user).authenticated = false →
        getAdminAuthStatus user = ⟨false, none⟩) := by
  refine ⟨?_, ?_, ?_⟩
  · intro u hu hrole
    subst hu
    simp [getAuthStatus, hrole]
  · cases user with
    | none => simp [getAdminAuthStatus]
    | some u =>
      by_cases hrole : u.role = adminRole
      · simp [getAdminAuthStatus, hrole]
      · simp [getAdminAuthStatus, hrole]
  · cases user with
    | none => intro _; rfl
    | some u =>
      by_cases hrole : u.role = adminRole
      · simp [getAdminAuthStatus, hrole]
      · simp [getAdminAuthStatus, hrole]

/-- C8 witness: the demo admin is suppressed by the user probe, and the
demo user is rejected by the admin probe. -/
theorem status_checks_respect_roles_witness :
    getAuthStatus (some adminP) = ⟨false, none⟩ ∧
    getAdminAuthStatus (some aliceP) = ⟨false, none⟩ :=
  ⟨(status_checks_respect_roles (some adminP)).1 adminP rfl (by decide),
   (status_checks_respect_roles (some aliceP)).2.2 (by decide)⟩

/-- C1: whenever credential verification succeeds and the role matches
the endpoint namespace, a store write of the session record carrying the
authenticated principal id appears in the request trace before the 200
response is flushed — for the user-namespace endpoint through its
explicit save, for the admin-namespace endpoint through the
response-finalization save. -/
theorem login_persists_before_success
    (db : UserDB) (email pw sid : Str) (sess : SessionData) (u : Principal)
    (hauth : authenticateLocal db email pw = .ok u) :
    (u.role ≠ adminRole →
      (userLoginRoute db email pw sid sess).response.status = 200 ∧
      persistedBeforeFlush (runRequest .userNs sid (userLoginRoute db email pw sid sess))
        .userNs sid u.pid = true) ∧
    (u.role = adminRole →
      (adminLoginRoute db email pw sid sess).response.status = 200 ∧
      persistedBeforeFlush (runRequest .adminNs sid (adminLoginRoute db email pw sid sess))
        .adminNs sid u.pid = true) := by
  constructor
  · intro hrole
    simp [userLoginRoute, hauth, hrole, runRequest, persistedBeforeFlush,
      List.takeWhile, isFlush, authSaveFor]
  · intro hrole
    simp [adminLoginRoute, hauth, hrole, runRequest, persistedBeforeFlush,
      List.takeWhile, isFlush, authSaveFor]

/-- C1 witness: the demo user on the user endpoint and the demo admin on
the admin endpoint both get a 200 preceded by the authenticated store
write. -/
theorem login_persists_before_success_witness :
    ((userLoginRoute demoDB "alice@x.com".toList "secret1".toList sidA anonSession).response.status = 200 ∧
      persistedBeforeFlush
        (runRequest .userNs sidA (userLoginRoute demoDB "alice@x.com".toList "secret1".toList sidA anonSession))
        .userNs sidA aliceP.pid = true) ∧
    ((adminLoginRoute demoDB "admin@gemstones.com".toList "admin123".toList sidA anonSession).response.status = 200 ∧
      persistedBeforeFlush
        (runRequest .adminNs sidA (adminLoginRoute demoDB "admin@gemstones.com".toList "admin123".toList sidA anonSession))
        .adminNs sidA adminP.pid = true) :=
  ⟨(login_persists_before_success demoDB "alice@x.com".toList "secret1".toList sidA
      anonSession aliceP rfl).1 (by decide),
   (login_persists_before_success demoDB "admin@gemstones.com".toList "admin123".toList sidA
      anonSession adminP rfl).2 (by decide)⟩

/-- C6: a valid-credential login of an admin principal on the
user-namespace endpoint answers 403, and once the request trace has been
applied to the stores the session record under that id in the
user-namespace store carries no authenticated principal. -/
theorem user_login_rejects_admin
    (db : UserDB) (email pw sid : Str) (sess : SessionData) (u : Principal)
    (stores : Stores)
    (hauth : authenticateLocal db email pw = .ok u)
    (hrole : u.role = adminRole) :
    (userLoginRoute db email pw sid sess).response.status = 403 ∧
    ∀ s2 : SessionData,
      storeLookup (applyTrace stores
        (runRequest .userNs sid (userLoginRoute db email pw sid sess))).userStore sid = some s2 →
      s2.passportUser = none := by
  constructor
  · simp [userLoginRoute, hauth, hrole]
  · intro s2 h2
    simp only [userLoginRoute, hauth, hrole, if_pos, runRequest, applyTrace,
      List.foldl, applyEv, List.append_assoc, List.cons_append, List.nil_append] at h2
    rw [storeLookup_insert_self] at h2
    cases h2
    rfl

/-- C6 witness: the demo admin logging in with valid credentials on the
user endpoint gets 403 and leaves no authenticated user-namespace
record. -/
theorem user_login_rejects_admin_witness :
    (userLoginRoute demoDB "admin@gemstones.com".toList "admin123".toList sidA anonSession).response.status = 403 ∧
    ∀ s2 : SessionData,
      storeLookup (applyTrace ⟨[], []⟩
        (runRequest .userNs sidA
          (userLoginRoute demoDB "admin@gemstones.com".toList "admin123".toList sidA anonSession))).userStore sidA = some s2 →
      s2.passportUser = none :=
  user_login_rejects_admin demoDB "admin@gemstones.com".toList "admin123".toList sidA
    anonSession adminP ⟨[], []⟩ rfl rfl

/-- C4 counterexample: a logout issued in the user namespace emits a
clear-cookie instruction for the admin namespace cookie, so the other
namespace cookie is not left unchanged. -/
theorem logout_clears_other_namespace_cookie :
    clearsCookie (runRequest .userNs sidA (logoutRoute .userNs sidA authedSession true))
      adminCookieName = true := by
  decide

/-- C4 amended: a logout destroys only the caller-namespace session
record and leaves the other namespace store untouched, but the response
clears both cookies, the other namespace cookie included. -/
theorem logout_frame_on_stores_not_cookies
    (stores : Stores) (sid : Str) (sess : SessionData)
    (hauth : sess.passportUser.isSome = true) :
    ((logoutRoute .userNs sid sess true).response.status = 200 ∧
      storeLookup (applyTrace stores
        (runRequest .userNs sid (logoutRoute .userNs sid sess true))).userStore sid = none ∧
      (applyTrace stores
        (runRequest .userNs sid (logoutRoute .userNs sid sess true))).adminStore = stores.adminStore ∧
      clearsCookie (runRequest .userNs sid (logoutRoute .userNs sid sess true)) userCookieName = true ∧
      clearsCookie (runRequest .userNs sid (logoutRoute .userNs sid sess true)) adminCookieName = true) ∧
    ((logoutRoute .adminNs sid sess true).response.status = 200 ∧
      storeLookup (applyTrace stores
        (runRequest .adminNs sid (logoutRoute .adminNs sid sess true))).adminStore sid = none ∧
      (applyTrace stores
        (runRequest .adminNs sid (logoutRoute .adminNs sid sess true))).userStore = stores.userStore ∧
      clearsCookie (runRequest .adminNs sid (logoutRoute .adminNs sid sess true)) userCookieName = true ∧
      clearsCookie (runRequest .adminNs sid (logoutRoute .adminNs sid sess true)) adminCookieName = true) := by
  refine ⟨⟨?_, ?_, ?_, ?_, ?_⟩, ⟨?_, ?_, ?_, ?_, ?_⟩⟩ <;>
    simp [logoutRoute, hauth, logoutHandler, runRequest, applyTrace, applyEv,
      clearsCookie, storeLookup_erase]

/-- C4 amended witness: a concrete user-namespace logout with both demo
stores populated. -/
theorem logout_frame_on_stores_not_cookies_witness :
    ((logoutRoute .userNs sidA authedSession true).response.status = 200 ∧
      storeLookup (applyTrace ⟨[(sidA, authedSession)], [(sidA, authedSession)]⟩
        (runRequest .userNs sidA (logoutRoute .userNs sidA authedSession true))).userStore sidA = none ∧
      (applyTrace ⟨[(sidA, authedSession)], [(sidA, authedSession)]⟩
        (runRequest .userNs sidA (logoutRoute .userNs sidA authedSession true))).adminStore =
        [(sidA, authedSession)] ∧
      clearsCookie (runRequest .userNs sidA (logoutRoute .userNs sidA authedSession true)) userCookieName = true ∧
      clearsCookie (runRequest .userNs sidA (logoutRoute .userNs sidA authedSession true)) adminCookieName = true) ∧
    ((logoutRoute .adminNs sidA authedSession true).response.status = 200 ∧
      storeLookup (applyTrace ⟨[(sidA, authedSession)], [(sidA, authedSession)]⟩
        (runRequest .adminNs sidA (logoutRoute .adminNs sidA authedSession true))).adminStore sidA = none ∧
      (applyTrace ⟨[(sidA, authedSession)], [(sidA, authedSession)]⟩
        (runRequest .adminNs sidA (logoutRoute .adminNs sidA authedSession true))).userStore =
        [(sidA, authedSession)] ∧
      clearsCookie (runRequest .adminNs sidA (logoutRoute .adminNs sidA authedSession true)) userCookieName = true ∧
      clearsCookie (runRequest .adminNs sidA (logoutRoute .adminNs sidA authedSession true)) adminCookieName = true) :=
  logout_frame_on_stores_not_cookies ⟨[(sidA, authedSession)], [(sidA, authedSession)]⟩
    sidA authedSession (by decide)

/-- C5 counterexample: an unauthenticated request to the logout route is
answered 401 by the isAuthenticated middleware, not 200. -/
theorem logout_unauthenticated_gets_401 :
    (logoutRoute .userNs sidA anonSession true).response.status = 401 ∧
    (logoutRoute .userNs sidA anonSession true).response.status ≠ 200 := by
  decide

/-- C5 amended: an authenticated request to the logout route whose
session destruction succeeds is answered 200 with the caller-namespace
cookie cleared. -/
theorem logout_route_ok
    (ns : Ns) (sid : Str) (sess : SessionData)
    (hauth : sess.passportUser.isSome = true) :
    (logoutRoute ns sid sess true).response.status = 200 ∧
    clearsCookie (runRequest ns sid (logoutRoute ns sid sess true)) (cookieNameOf ns) = true := by
  cases ns <;>
    simp [logoutRoute, hauth, logoutHandler, runRequest, clearsCookie, cookieNameOf]

/-- C5 amended witness: a concrete authenticated logout in each
namespace. -/
theorem logout_route_ok_witness :
    ((logoutRoute .userNs sidA authedSession true).response.status = 200 ∧
      clearsCookie (runRequest .userNs sidA (logoutRoute .userNs sidA authedSession true))
        (cookieNameOf .userNs) = true) ∧
    ((logoutRoute .adminNs sidA authedSession true).response.status = 200 ∧
      clearsCookie (runRequest .adminNs sidA (logoutRoute .adminNs sidA authedSession true))
        (cookieNameOf .adminNs) = true) :=
  ⟨logout_route_ok .userNs sidA authedSession (by decide),
   logout_route_ok .adminNs sidA authedSession (by decide)⟩

/-- C7 counterexample: a signup request whose email already exists but
whose role field is the string admin is answered 403, not with the
conflict error the claim requires for every duplicate email. -/
theorem signup_role_check_precedes_conflict_check :
    (findByEmail demoDB (lowerStr "alice@x.com".toList)).isSome = true ∧
    (signupHandler demoDB 9 "alice@x.com".toList "pw123456".toList none none
      (some adminRole) sidA anonSession).2.response.status = 403 ∧
    (signupHandler demoDB 9 "alice@x.com".toList "pw123456".toList none none
      (some adminRole) sidA anonSession).2.response.status ≠ 400 := by
  decide

/-- C7 amended: the role check precedes the duplicate check: a requested
role equal to admin is answered 403 with no principal created even when
the email exists; otherwise a duplicate lower-cased email is answered
400 with no principal created; otherwise a principal is stored with role
user, a hashed credential and the lower-cased email, the user-namespace
session is authenticated with its id and persisted before the 201
response is flushed, and the response carries the principal without the
credential hash. -/
theorem signup_spec
    (db : UserDB) (newId : Nat) (email pw : Str)
    (fn ln : Option Str) (role : Option Str) (sid : Str) (sess : SessionData) :
    (role = some adminRole →
      (signupHandler db newId email pw fn ln role sid sess).2.response.status = 403 ∧
      (signupHandler db newId email pw fn ln role sid sess).1 = db) ∧
    (role ≠ some adminRole → (findByEmail db (lowerStr email)).isSome = true →
      (signupHandler db newId email pw fn ln role sid sess).2.response.status = 400 ∧
      (signupHandler db newId email pw fn ln role sid sess).1 = db) ∧
    (role ≠ some adminRole → findByEmail db (lowerStr email) = none →
      (signupHandler db newId email pw fn ln role sid sess).2.response.status = 201 ∧
      ∃ nu : Principal,
        (signupHandler db newId email pw fn ln role sid sess).1 = db ++ [nu] ∧
        nu.role = userRole ∧
        nu.email = lowerStr email ∧
        nu.passwordHash = hashPassword pw ∧
        (signupHandler db newId email pw fn ln role sid sess).2.response.user = some (toView nu) ∧
        persistedBeforeFlush
          (runRequest .userNs sid (signupHandler db newId email pw fn ln role sid sess).2)
          .userNs sid nu.pid = true) := by
  refine ⟨?_, ?_, ?_⟩
  · intro hrole
    simp [signupHandler, hrole]
  · intro hrole hdup
    rcases Option.isSome_iff_exists.mp hdup with ⟨u, hu⟩
    simp [signupHandler, hrole, hu]
  · intro hrole hnew
    refine ⟨?_, ?_⟩
    · simp [signupHandler, hrole, hnew]
    · refine ⟨⟨newId, lowerStr email, hashPassword pw, fn.getD [], ln.getD [],
        userRole, true⟩, ?_, rfl, rfl, rfl, ?_, ?_⟩ <;>
        simp [signupHandler, hrole, hnew, runRequest, persistedBeforeFlush,
          List.takeWhile, isFlush, authSaveFor, toView]

/-- C7 amended witness: a fresh signup against the demo collection. -/
theorem signup_spec_witness :
    (signupHandler demoDB 9 "Bob@X.com".toList "pw123456".toList none none
      none sidA anonSession).2.response.status = 201 ∧
    ∃ nu : Principal,
      (signupHandler demoDB 9 "Bob@X.com".toList "pw123456".toList none none
        none sidA anonSession).1 = demoDB ++ [nu] ∧
      nu.role = userRole ∧
      nu.email = lowerStr "Bob@X.com".toList ∧
      nu.passwordHash = hashPassword "pw123456".toList ∧
      (signupHandler demoDB 9 "Bob@X.com".toList "pw123456".toList none none
        none sidA anonSession).2.response.user = some (toView nu) ∧
      persistedBeforeFlush
        (runRequest .userNs sidA (signupHandler demoDB 9 "Bob@X.com".toList "pw123456".toList none none
          none sidA anonSession).2)
        .userNs sidA nu.pid = true :=
  (signup_spec demoDB 9 "Bob@X.com".toList "pw123456".toList none none
    none sidA anonSession).2.2 (by decide) (by decide)

/-- C10: the signup admin rejection is an exact string match: the
response is 403 exactly when the requested role is the string admin; any
other requested role proceeds (for a fresh email) to a 201 with the
stored principal role forced to user. -/
theorem signup_admin_rejection_exact_string
    (db : UserDB) (newId : Nat) (email pw : Str)
    (fn ln : Option Str) (role : Option Str) (sid : Str) (sess : SessionData) :
    ((signupHandler db newId email pw fn ln role sid sess).2.response.status = 403 ↔
      role = some adminRole) ∧
    (role ≠ some adminRole → findByEmail db (lowerStr email) = none →
      (signupHandler db newId email pw fn ln role sid sess).2.response.status = 201 ∧
      ∃ nu : Principal,
        (signupHandler db newId email pw fn ln role sid sess).1 = db ++ [nu] ∧
        nu.role = userRole) := by
  constructor
  · constructor
    · intro h403
      by_contra hrole
      cases hdup : findByEmail db (lowerStr email) with
      | none => simp [signupHandler, hrole, hdup] at h403
      | some u => simp [signupHandler, hrole, hdup] at h403
    · intro hrole
      simp [signupHandler, hrole]
  · intro hrole hnew
    refine ⟨by simp [signupHandler, hrole, hnew], ?_⟩
    exact ⟨⟨newId, lowerStr email, hashPassword pw, fn.getD [], ln.getD [],
      userRole, true⟩, by simp [signupHandler, hrole, hnew], rfl⟩

/-- C10 witness: a requested role Admin (capitalized) is not rejected;
the stored principal role is user. -/
theorem signup_admin_rejection_exact_string_witness :
    (signupHandler [] 1 "x@y.com".toList "pw123456".toList none none
      (some "Admin".toList) sidA anonSession).2.response.status = 201 ∧
    ∃ nu : Principal,
      (signupHandler [] 1 "x@y.com".toList "pw123456".toList none none
        (some "Admin".toList) sidA anonSession).1 = [] ++ [nu] ∧
      nu.role = userRole :=
  (signup_admin_rejection_exact_string [] 1 "x@y.com".toList "pw123456".toList none none
    (some "Admin".toList) sidA anonSession).2 (by decide) (by decide)

end Gemstone
